import Mathlib

/-!
Verification of the GameCube-controller USB adapter protocol core
(discovery, session establishment, packet decoding).

The definitions below are a shallow embedding of the Rust source
(`src/lib.rs`): bytes are `Nat` values below 256, slices become
functions out of `Fin`, the external USB host stack becomes an
explicit record of call outcomes, and every host-stack call made
during establishment / teardown is recorded in a trace of `Action`s.
-/

set_option autoImplicit false

namespace Gcn

/-- USB vendor identifier of the adapter (`VENDOR_ID` in the source). -/
def VENDOR_ID : Nat := 0x057e

/-- USB product identifier of the adapter (`PRODUCT_ID` in the source). -/
def PRODUCT_ID : Nat := 0x0337

/-- The classification of a GameCube controller (`ControllerKind`). -/
inductive ControllerKind where
  | Wired
  | Wireless
  | Unknown
deriving DecidableEq, Repr

/-- The state of a GameCube controller at a given moment (`Controller`). -/
structure Controller where
  kind : ControllerKind
  a : Bool
  b : Bool
  x : Bool
  y : Bool
  up : Bool
  down : Bool
  left : Bool
  right : Bool
  l : Bool
  r : Bool
  l_analog : Nat
  r_analog : Nat
  z : Bool
  start : Bool
  stick_x : Nat
  stick_y : Nat
  c_stick_x : Nat
  c_stick_y : Nat
deriving DecidableEq, Repr

/-- The button/axis field extraction of `Controller::parse`, shared by
the three connected-kind cases.  Mirrors the Rust bit tests
`data[i] & (1 << k) != 0` and the verbatim byte reads. -/
def parseFields (data : Fin 9 → Nat) (kind : ControllerKind) : Controller :=
  { kind := kind,
      a := data 1 &&& (1 <<< 0) != 0,
      b := data 1 &&& (1 <<< 1) != 0,
      x := data 1 &&& (1 <<< 2) != 0,
      y := data 1 &&& (1 <<< 3) != 0,
      left := data 1 &&& (1 <<< 4) != 0,
      right := data 1 &&& (1 <<< 5) != 0,
      down := data 1 &&& (1 <<< 6) != 0,
      up := data 1 &&& (1 <<< 7) != 0,
      start := data 2 &&& (1 <<< 0) != 0,
      z := data 2 &&& (1 <<< 1) != 0,
      r := data 2 &&& (1 <<< 2) != 0,
      l := data 2 &&& (1 <<< 3) != 0,
      stick_x := data 3,
      stick_y := data 4,
      c_stick_x := data 5,
      c_stick_y := data 6,
      l_analog := data 7,
      r_analog := data 8 }

/-- `Controller::parse`: decode one 9-byte sub-packet into an optional
controller snapshot, matching on the upper nibble `data[0] >> 4`. -/
def parse (data : Fin 9 → Nat) : Option Controller :=
  match data 0 >>> 4 with
  | 0 => none
  | 1 => some (parseFields data ControllerKind.Wired)
  | 2 => some (parseFields data ControllerKind.Wireless)
  | _ => some (parseFields data ControllerKind.Unknown)

/-- Reference extraction written from the specification's words (§4.3):
the upper nibble (bits 4–7) of byte 0 selects the connection kind,
bytes 1 and 2 are LSB-first button bitmasks read with `Nat.testBit`,
and bytes 3–8 are taken verbatim. -/
def specDecode (data : Fin 9 → Nat) : Option Controller :=
  let nib := data 0 / 2 ^ 4 % 2 ^ 4
  if nib = 0 then none
  else some
    { kind := if nib = 1 then ControllerKind.Wired
              else if nib = 2 then ControllerKind.Wireless
              else ControllerKind.Unknown,
      a := (data 1).testBit 0,
      b := (data 1).testBit 1,
      x := (data 1).testBit 2,
      y := (data 1).testBit 3,
      left := (data 1).testBit 4,
      right := (data 1).testBit 5,
      down := (data 1).testBit 6,
      up := (data 1).testBit 7,
      start := (data 2).testBit 0,
      z := (data 2).testBit 1,
      r := (data 2).testBit 2,
      l := (data 2).testBit 3,
      stick_x := data 3,
      stick_y := data 4,
      c_stick_x := data 5,
      c_stick_y := data 6,
      l_analog := data 7,
      r_analog := data 8 }

/-- Pack eight booleans into one byte, LSB first. -/
def packBits (b0 b1 b2 b3 b4 b5 b6 b7 : Bool) : Nat :=
  b0.toNat + 2 * b1.toNat + 4 * b2.toNat + 8 * b3.toNat +
  16 * b4.toNat + 32 * b5.toNat + 64 * b6.toNat + 128 * b7.toNat

/-- Nibble chosen when encoding a connection kind into a synthetic
sub-packet (the decoder maps 1 to Wired, 2 to Wireless, others to
Unknown). -/
def kindNibble : ControllerKind → Nat
  | ControllerKind.Wired => 1
  | ControllerKind.Wireless => 2
  | ControllerKind.Unknown => 3

/-- Build a synthetic 9-byte sub-packet from a chosen controller state,
following the layout of §4.3. -/
def encode (c : Controller) : Fin 9 → Nat := fun i =>
  match i.val with
  | 0 => kindNibble c.kind <<< 4
  | 1 => packBits c.a c.b c.x c.y c.left c.right c.down c.up
  | 2 => packBits c.start c.z c.r c.l false false false false
  | 3 => c.stick_x
  | 4 => c.stick_y
  | 5 => c.c_stick_x
  | 6 => c.c_stick_y
  | 7 => c.l_analog
  | _ => c.r_analog

theorem and_shift_ne (n k : Nat) : (n &&& (1 <<< k) != 0) = n.testBit k := by
  rw [Nat.shiftLeft_eq, one_mul, Nat.and_two_pow]
  cases h : n.testBit k <;> simp [h, (Nat.two_pow_pos k).ne']

theorem parseFields_eq (data : Fin 9 → Nat) (kind : ControllerKind) :
    parseFields data kind =
      { kind := kind,
        a := (data 1).testBit 0,
        b := (data 1).testBit 1,
        x := (data 1).testBit 2,
        y := (data 1).testBit 3,
        left := (data 1).testBit 4,
        right := (data 1).testBit 5,
        down := (data 1).testBit 6,
        up := (data 1).testBit 7,
        start := (data 2).testBit 0,
        z := (data 2).testBit 1,
        r := (data 2).testBit 2,
        l := (data 2).testBit 3,
        stick_x := data 3,
        stick_y := data 4,
        c_stick_x := data 5,
        c_stick_y := data 6,
        l_analog := data 7,
        r_analog := data 8 } := by
  simp only [parseFields, and_shift_ne]

theorem packBits_testBit (b0 b1 b2 b3 b4 b5 b6 b7 : Bool) :
    (packBits b0 b1 b2 b3 b4 b5 b6 b7).testBit 0 = b0 ∧
    (packBits b0 b1 b2 b3 b4 b5 b6 b7).testBit 1 = b1 ∧
    (packBits b0 b1 b2 b3 b4 b5 b6 b7).testBit 2 = b2 ∧
    (packBits b0 b1 b2 b3 b4 b5 b6 b7).testBit 3 = b3 ∧
    (packBits b0 b1 b2 b3 b4 b5 b6 b7).testBit 4 = b4 ∧
    (packBits b0 b1 b2 b3 b4 b5 b6 b7).testBit 5 = b5 ∧
    (packBits b0 b1 b2 b3 b4 b5 b6 b7).testBit 6 = b6 ∧
    (packBits b0 b1 b2 b3 b4 b5 b6 b7).testBit 7 = b7 := by
  cases b0 <;> cases b1 <;> cases b2 <;> cases b3 <;>
    cases b4 <;> cases b5 <;> cases b6 <;> cases b7 <;> decide

theorem shiftLeft4_shiftRight4 (n : Nat) : (n <<< 4) >>> 4 = n := by
  rw [Nat.shiftLeft_eq, Nat.shiftRight_eq_div_pow]
  exact Nat.mul_div_cancel n (by norm_num)

/-- `parse` agrees with the reference extraction on byte-valued input. -/
theorem parse_eq_specDecode (data : Fin 9 → Nat) (h : data 0 < 256) :
    parse data = specDecode data := by
  have hn : data 0 / 2 ^ 4 % 2 ^ 4 = data 0 >>> 4 := by
    rw [Nat.shiftRight_eq_div_pow]
    omega
  unfold parse specDecode
  rw [hn]
  rcases hv : data 0 >>> 4 with _ | (_ | (_ | k))
  · norm_num
  · norm_num [parseFields_eq]
  · norm_num [parseFields_eq]
  · norm_num [parseFields_eq, show ¬(k + 1 + 1 + 1 = 0) from by omega,
      show ¬(k + 1 + 1 + 1 = 1) from by omega,
      show ¬(k + 1 + 1 + 1 = 2) from by omega]

/-- Decoding a synthetic sub-packet recovers the encoded state. -/
theorem parse_encode (c : Controller) : parse (encode c) = some c := by
  have h0 : encode c 0 >>> 4 = kindNibble c.kind := by
    rw [show encode c 0 = kindNibble c.kind <<< 4 from rfl, shiftLeft4_shiftRight4]
  have h1 : encode c 1 = packBits c.a c.b c.x c.y c.left c.right c.down c.up := rfl
  have h2 : encode c 2 = packBits c.start c.z c.r c.l false false false false := rfl
  have h3 : encode c 3 = c.stick_x := rfl
  have h4 : encode c 4 = c.stick_y := rfl
  have h5 : encode c 5 = c.c_stick_x := rfl
  have h6 : encode c 6 = c.c_stick_y := rfl
  have h7 : encode c 7 = c.l_analog := rfl
  have h8 : encode c 8 = c.r_analog := rfl
  unfold parse
  rw [h0]
  cases hc : c.kind <;>
    · simp only [kindNibble, parseFields_eq, h1, h2, h3, h4, h5, h6, h7, h8,
        packBits_testBit]
      rw [← hc]

/-- C1: decoding a 9-byte sub-packet equals the reference extraction of
§4.3 (None exactly when the upper nibble of byte 0 is 0; kind from the
nibble; buttons from bytes 1–2 LSB-first; bytes 3–8 verbatim), and
encoding any chosen state into a synthetic sub-packet and decoding it
reproduces that state. -/
theorem c1_subpacket_decode :
    (∀ data : Fin 9 → Nat, data 0 < 256 → parse data = specDecode data) ∧
    (∀ c : Controller, parse (encode c) = some c) :=
  ⟨parse_eq_specDecode, parse_encode⟩

/-- The sub-packet of the spec's worked scenario. -/
def scenarioPacket : Fin 9 → Nat := fun i =>
  List.getD [0x10, 1, 0, 128, 128, 128, 128, 0, 0] i.val 0

/-- Witness for C1 at the spec's scenario sub-packet and at a concrete
controller state. -/
theorem c1_subpacket_decode_witness :
    parse scenarioPacket = specDecode scenarioPacket ∧
    parse (encode
      { kind := ControllerKind.Wireless, a := true, b := false, x := true,
        y := false, up := true, down := false, left := false, right := true,
        l := false, r := true, l_analog := 17, r_analog := 255, z := true,
        start := false, stick_x := 128, stick_y := 30, c_stick_x := 225,
        c_stick_y := 0 }) = some
      { kind := ControllerKind.Wireless, a := true, b := false, x := true,
        y := false, up := true, down := false, left := false, right := true,
        l := false, r := true, l_analog := 17, r_analog := 255, z := true,
        start := false, stick_x := 128, stick_y := 30, c_stick_x := 225,
        c_stick_y := 0 } :=
  ⟨c1_subpacket_decode.1 scenarioPacket (by decide), c1_subpacket_decode.2 _⟩

/-- Index of byte `j` of port `p`'s 9-byte sub-packet inside the
37-byte buffer: the source slices the buffer at `1..10`, `10..19`,
`19..28`, `28..37`, i.e. port `p` occupies bytes `1 + 9p` through
`9 + 9p`. -/
def portByte (p : Fin 4) (j : Fin 9) : Fin 37 :=
  ⟨1 + 9 * p.val + j.val, by
    have hp := p.isLt
    have hj := j.isLt
    omega⟩

/-- `Controller::parse_packet`: byte 0 of the 37-byte buffer is skipped
and each of the four consecutive 9-byte slices is decoded with
`parse`. -/
def parse_packet (data : Fin 37 → Nat) : Fin 4 → Option Controller :=
  fun p => parse (fun j => data (portByte p j))

/-- C3: packet decoding produces 4 optional snapshots where port `p` is
the sub-packet decode of bytes `1 + 9p` through `9 + 9p`; byte 0 is
ignored entirely, and each port's result is a function only of its own
9-byte region, so mutating one port's bytes never changes another
port's result. -/
theorem c3_packet_locality :
    (∀ (data : Fin 37 → Nat) (p : Fin 4),
       parse_packet data p = parse (fun j => data (portByte p j))) ∧
    (∀ d d' : Fin 37 → Nat, (∀ i : Fin 37, 1 ≤ i.val → d i = d' i) →
       parse_packet d = parse_packet d') ∧
    (∀ (d d' : Fin 37 → Nat) (p : Fin 4),
       (∀ j : Fin 9, d (portByte p j) = d' (portByte p j)) →
       parse_packet d p = parse_packet d' p) := by
  have hlocal : ∀ (d d' : Fin 37 → Nat) (p : Fin 4),
      (∀ j : Fin 9, d (portByte p j) = d' (portByte p j)) →
      parse_packet d p = parse_packet d' p := by
    intro d d' p h
    unfold parse_packet
    exact congrArg parse (funext h)
  refine ⟨fun data p => rfl, ?_, hlocal⟩
  intro d d' h
  funext p
  exact hlocal d d' p fun j => h (portByte p j) (by simp [portByte]; omega)

/-- A 37-byte buffer realizing the spec's scenario: byte 0 is arbitrary
padding, port 1's sub-packet has upper nibble 0, the other ports carry
the scenario sub-packet. -/
def scenarioBuffer : Fin 37 → Nat := fun i =>
  if i.val = 0 then 0xAB
  else if 10 ≤ i.val ∧ i.val < 19 then 0
  else scenarioPacket ⟨(i.val - 1) % 9, Nat.mod_lt _ (by omega)⟩

/-- A second buffer differing from `scenarioBuffer` only at byte 0 and
inside port 2's region. -/
def scenarioBuffer2 : Fin 37 → Nat := fun i =>
  if i.val = 0 then 0x00
  else if i.val = 20 then 0xFF
  else scenarioBuffer i

/-- Witness for C3: ports 0 and 3 of the two buffers decode equally
even though byte 0 and a byte of port 2 differ. -/
theorem c3_packet_locality_witness :
    parse_packet scenarioBuffer 0 = parse_packet scenarioBuffer2 0 ∧
    parse_packet scenarioBuffer 3 = parse_packet scenarioBuffer2 3 :=
  ⟨c3_packet_locality.2.2 scenarioBuffer scenarioBuffer2 0 (by decide),
   c3_packet_locality.2.2 scenarioBuffer scenarioBuffer2 3 (by decide)⟩

/-- An opaque underlying `libusb` failure (the payload of
`Error::Usb`); timeouts are one of its shapes. -/
inductive UsbError where
  | timeout
  | other (code : Nat)
deriving DecidableEq, Repr

/-- `Error`: the library's error type. -/
inductive Error where
  | Usb (err : UsbError)
  | UnrecognizedProtocol
  | InvalidPacket
deriving DecidableEq, Repr

/-- One call made on the USB host stack, recorded for trace
reasoning. -/
inductive Action where
  | openDevice
  | getConfigDescriptor (idx : Nat)
  | kernelDriverActiveQuery (iface : Nat)
  | detachKernelDriver (iface : Nat)
  | setActiveConfiguration (n : Nat)
  | claimInterface (iface : Nat)
  | setAlternateSetting (iface setting : Nat)
  | writeInterrupt (ep : Nat) (bytes : List Nat) (timeoutSecs : Nat)
  | readInterrupt (ep : Nat) (timeoutSecs : Nat)
  | attachKernelDriver (iface : Nat)
deriving DecidableEq, Repr

/-- `Listener`: per-session state (the opened device handle itself is
the external resource and carries no data of its own). -/
structure Listener where
  buffer : Fin 37 → Nat
  has_kernel_driver : Bool
  interface : Nat
  endpoint_in : Nat

/-- Outcome of one interrupt transfer on the IN endpoint: either it
completes, reporting a byte count and leaving the 37-byte receive
buffer in some state, or the transfer itself errors (timeout
included). -/
inductive TransferResult where
  | ok (count : Nat) (buf : Fin 37 → Nat)
  | err (e : UsbError)

/-- `Listener::read`: perform one interrupt transfer into the reusable
buffer with a 1-second timeout; decode only a 37-byte completion. -/
def read (l : Listener) (t : TransferResult) :
    Except Error (Fin 4 → Option Controller) × Listener × List Action :=
  match t with
  | TransferResult.ok count buf =>
    if count = 37 then
      (Except.ok (parse_packet buf), { l with buffer := buf },
        [Action.readInterrupt l.endpoint_in 1])
    else
      (Except.error Error.InvalidPacket, { l with buffer := buf },
        [Action.readInterrupt l.endpoint_in 1])
  | TransferResult.err e =>
    (Except.error (Error.Usb e), l, [Action.readInterrupt l.endpoint_in 1])

/-- C2: the three outcomes of `read` — exactly 37 bytes decodes the
buffer, any other completed byte count is `InvalidPacket` with no
field extraction (the result is the same for every buffer content),
and a transfer error is surfaced as `Usb` wrapping it; the three
transfer shapes are exhaustive and the three outcomes pairwise
distinct. -/
theorem c2_read_cases :
    (∀ (l : Listener) (buf : Fin 37 → Nat),
       (read l (TransferResult.ok 37 buf)).1 = Except.ok (parse_packet buf)) ∧
    (∀ (l : Listener) (count : Nat) (buf : Fin 37 → Nat), count ≠ 37 →
       (read l (TransferResult.ok count buf)).1 = Except.error Error.InvalidPacket) ∧
    (∀ (l : Listener) (e : UsbError),
       (read l (TransferResult.err e)).1 = Except.error (Error.Usb e)) ∧
    (∀ t : TransferResult,
       (∃ buf, t = TransferResult.ok 37 buf) ∨
       (∃ count buf, count ≠ 37 ∧ t = TransferResult.ok count buf) ∨
       (∃ e, t = TransferResult.err e)) ∧
    (∀ (res : Fin 4 → Option Controller) (e : UsbError),
       (Except.ok res : Except Error _) ≠ Except.error Error.InvalidPacket ∧
       (Except.ok res : Except Error _) ≠ Except.error (Error.Usb e) ∧
       (Except.error Error.InvalidPacket : Except Error (Fin 4 → Option Controller)) ≠
         Except.error (Error.Usb e)) := by
  refine ⟨fun l buf => by simp [read], fun l count buf h => by simp [read, h],
    fun l e => rfl, ?_, fun res e => by simp⟩
  intro t
  match t with
  | TransferResult.ok count buf =>
    by_cases h : count = 37
    · exact Or.inl ⟨buf, by rw [h]⟩
    · exact Or.inr (Or.inl ⟨count, buf, h, rfl⟩)
  | TransferResult.err e => exact Or.inr (Or.inr ⟨e, rfl⟩)

/-- A concrete listener used by witnesses. -/
def listener0 : Listener :=
  { buffer := fun _ => 0, has_kernel_driver := true, interface := 0,
    endpoint_in := 0x81 }

/-- Witness for C2 at a 5-byte completion. -/
theorem c2_read_cases_witness :
    (read listener0 (TransferResult.ok 5 scenarioBuffer)).1 =
      Except.error Error.InvalidPacket :=
  c2_read_cases.2.1 listener0 5 scenarioBuffer (by decide)

/-- Does this action reattach the kernel driver? -/
def isAttach : Action → Bool
  | Action.attachKernelDriver _ => true
  | _ => false

/-- `Drop for Listener`: on release, if the detach flag was set,
reattach the kernel driver to the claimed interface, discarding the
outcome (`let _ = ...` in the source). -/
def dropListener (l : Listener) (attachResult : Except UsbError Unit) :
    List Action :=
  if l.has_kernel_driver then
    let _ := attachResult
    [Action.attachKernelDriver l.interface]
  else []

/-- A caller's read loop: issue reads until the first error (errors are
documented as fatal to the session), accumulating the trace. -/
def runReads : Listener → List TransferResult → Listener × List Action
  | l, [] => (l, [])
  | l, t :: ts =>
    match read l t with
    | (Except.ok _, l', tr) =>
      let (l'', tr') := runReads l' ts
      (l'', tr ++ tr')
    | (Except.error _, l', tr) => (l', tr)

/-- A full session: some reads (possibly ending in an error), then the
listener is released. -/
def runSession (l : Listener) (ts : List TransferResult)
    (attachResult : Except UsbError Unit) : List Action :=
  let (l', tr) := runReads l ts
  tr ++ dropListener l' attachResult

theorem read_preserves (l : Listener) (t : TransferResult) :
    (read l t).2.1.interface = l.interface ∧
    (read l t).2.1.endpoint_in = l.endpoint_in ∧
    (read l t).2.1.has_kernel_driver = l.has_kernel_driver := by
  match t with
  | TransferResult.ok count buf =>
    by_cases h : count = 37 <;> simp [read, h]
  | TransferResult.err e => exact ⟨rfl, rfl, rfl⟩

theorem read_trace (l : Listener) (t : TransferResult) :
    (read l t).2.2 = [Action.readInterrupt l.endpoint_in 1] := by
  match t with
  | TransferResult.ok count buf =>
    by_cases h : count = 37 <;> simp [read, h]
  | TransferResult.err e => rfl

theorem runReads_preserves (l : Listener) (ts : List TransferResult) :
    (runReads l ts).1.interface = l.interface ∧
    (runReads l ts).1.endpoint_in = l.endpoint_in ∧
    (runReads l ts).1.has_kernel_driver = l.has_kernel_driver := by
  induction ts generalizing l with
  | nil => exact ⟨rfl, rfl, rfl⟩
  | cons t ts ih =>
    obtain ⟨h1, h2, h3⟩ := read_preserves l t
    unfold runReads
    match hr : read l t with
    | (Except.ok res, l', tr) =>
      obtain ⟨g1, g2, g3⟩ := ih l'
      rw [hr] at h1 h2 h3
      simp only at h1 h2 h3
      exact ⟨g1.trans h1, g2.trans h2, g3.trans h3⟩
    | (Except.error err, l', tr) =>
      rw [hr] at h1 h2 h3
      exact ⟨h1, h2, h3⟩

theorem runReads_no_attach (l : Listener) (ts : List TransferResult) :
    ((runReads l ts).2.countP isAttach) = 0 := by
  induction ts generalizing l with
  | nil => rfl
  | cons t ts ih =>
    have htr := read_trace l t
    unfold runReads
    match hr : read l t with
    | (Except.ok res, l', tr) =>
      rw [hr] at htr
      simp only [] at htr ⊢
      rw [List.countP_append, htr, ih l']
      rfl
    | (Except.error err, l', tr) =>
      rw [hr] at htr
      simp only [] at htr ⊢
      rw [htr]
      rfl

/-- C5: over a whole session (any read sequence, including one ending
in a read error), release performs kernel-driver reattachment exactly
once when the detach flag was set and never otherwise, and the
teardown behaviour is identical whatever the reattachment call
returns (its failure is swallowed). -/
theorem c5_teardown_reattach (l : Listener) (ts : List TransferResult)
    (r r' : Except UsbError Unit) :
    ((runSession l ts r).countP isAttach =
       if l.has_kernel_driver then 1 else 0) ∧
    runSession l ts r = runSession l ts r' := by
  constructor
  · unfold runSession
    rw [List.countP_append, runReads_no_attach]
    have hk := (runReads_preserves l ts).2.2
    unfold dropListener
    rw [hk]
    by_cases h : l.has_kernel_driver <;> simp [h, isAttach]
  · rfl

/-- C6: across any sequence of reads, the claimed interface number, IN
endpoint address and detach flag keep the values they had at
construction — a single read and a whole loop of reads mutate only the
receive buffer. -/
theorem c6_session_fields_immutable (l : Listener) (ts : List TransferResult) :
    (∀ t : TransferResult,
       (read l t).2.1.interface = l.interface ∧
       (read l t).2.1.endpoint_in = l.endpoint_in ∧
       (read l t).2.1.has_kernel_driver = l.has_kernel_driver) ∧
    (runReads l ts).1.interface = l.interface ∧
    (runReads l ts).1.endpoint_in = l.endpoint_in ∧
    (runReads l ts).1.has_kernel_driver = l.has_kernel_driver :=
  ⟨fun t => read_preserves l t, runReads_preserves l ts⟩

/-- Direction of a USB endpoint descriptor. -/
inductive Direction where
  | In
  | Out
deriving DecidableEq, Repr

/-- One endpoint descriptor: a direction and an address. -/
structure EndpointDesc where
  direction : Direction
  address : Nat
deriving DecidableEq, Repr

/-- One interface descriptor (alternate setting) with its endpoint
descriptors. -/
structure InterfaceDesc where
  interface_number : Nat
  setting_number : Nat
  endpoints : List EndpointDesc
deriving DecidableEq, Repr

/-- One interface: its list of alternate-setting descriptors. -/
structure Interface where
  descriptors : List InterfaceDesc
deriving DecidableEq, Repr

/-- The first configuration descriptor: its number and interfaces. -/
structure ConfigDescriptor where
  number : Nat
  interfaces : List Interface
deriving DecidableEq, Repr

/-- The inner endpoint loop of `Adapter::listen`: classify each
endpoint by direction, each side keeping the most recently seen
address. -/
def walkEndpoints (eps : List EndpointDesc) (acc : Option Nat × Option Nat) :
    Option Nat × Option Nat :=
  eps.foldl
    (fun acc ep =>
      match ep.direction with
      | Direction.In => (some ep.address, acc.2)
      | Direction.Out => (acc.1, some ep.address))
    acc

/-- The per-interface loop of `Adapter::listen`: walk every
alternate-setting descriptor, accumulating endpoint addresses and
keeping the most recently seen descriptor, starting from the reset
state. -/
def walkInterface (descs : List InterfaceDesc) :
    Option InterfaceDesc × Option Nat × Option Nat :=
  descs.foldl
    (fun acc d => (some d, walkEndpoints d.endpoints acc.2))
    (none, none, none)

/-- The outer loop of `Adapter::listen`: each interface iteration
resets `interface_descriptor`, `endpoint_in` and `endpoint_out` to
`None` before walking, so the state after the loop is the last
interface's walk. -/
def walkConfig (ifaces : List Interface) :
    Option InterfaceDesc × Option Nat × Option Nat :=
  ifaces.foldl (fun _ i => walkInterface i.descriptors) (none, none, none)

/-- Outcomes the USB host stack returns for the calls `Adapter::listen`
makes, one slot per call site. -/
structure Host where
  openResult : Except UsbError Unit
  configResult : Except UsbError ConfigDescriptor
  kernelDriverActive : Except UsbError Bool
  detachResult : Except UsbError Unit
  setConfigResult : Except UsbError Unit
  claimResult : Except UsbError Unit
  setAltResult : Except UsbError Unit
  writeResult : Except UsbError Nat

/-- One `try!`-style call: on failure, stop with `Usb` wrapping the
error; on success, run the continuation; either way record the call in
the trace. -/
def step {α : Type} (r : Except UsbError α) (act : Action)
    (k : α → Except Error Listener × List Action) :
    Except Error Listener × List Action :=
  match r with
  | Except.error e => (Except.error (Error.Usb e), [act])
  | Except.ok a =>
    let p := k a
    (p.1, act :: p.2)

/-- `Adapter::listen`: open the device, walk the configuration
descriptor for the interface/endpoint pair, detach any kernel driver
(recording the fact; a failing activity query counts as no driver),
activate the configuration, claim the interface, select the alternate
setting, send the single-byte `0x13` activation command on the OUT
endpoint with a 1-second timeout, and construct the listener. -/
def listen (h : Host) : Except Error Listener × List Action :=
  step h.openResult Action.openDevice fun _ =>
  step h.configResult (Action.getConfigDescriptor 0) fun config =>
  match walkConfig config.interfaces with
  | (some interface_descriptor, some ep_in, some ep_out) =>
    let interface_number := interface_descriptor.interface_number
    let rest := fun (has_kernel_driver : Bool) =>
      step h.setConfigResult (Action.setActiveConfiguration config.number) fun _ =>
      step h.claimResult (Action.claimInterface interface_number) fun _ =>
      step h.setAltResult
        (Action.setAlternateSetting interface_number
          interface_descriptor.setting_number) fun _ =>
      step h.writeResult (Action.writeInterrupt ep_out [0x13] 1) fun _ =>
      (Except.ok
        { buffer := fun _ => 0,
          has_kernel_driver := has_kernel_driver,
          interface := interface_number,
          endpoint_in := ep_in }, [])
    match h.kernelDriverActive with
    | Except.ok true =>
      let p := step h.detachResult (Action.detachKernelDriver interface_number)
        fun _ => rest true
      (p.1, Action.kernelDriverActiveQuery interface_number :: p.2)
    | _ =>
      let p := rest false
      (p.1, Action.kernelDriverActiveQuery interface_number :: p.2)
  | _ => (Except.error Error.UnrecognizedProtocol, [])

/-- The inner interface loop starting from an arbitrary accumulated
state (`walkInterface` starts it from the reset state). -/
def walkDescs (descs : List InterfaceDesc)
    (st : Option InterfaceDesc × Option Nat × Option Nat) :
    Option InterfaceDesc × Option Nat × Option Nat :=
  descs.foldl (fun acc d => (some d, walkEndpoints d.endpoints acc.2)) st

theorem walkInterface_eq_walkDescs (descs : List InterfaceDesc) :
    walkInterface descs = walkDescs descs (none, none, none) := rfl

theorem walkEndpoints_cons (ep : EndpointDesc) (eps : List EndpointDesc)
    (acc : Option Nat × Option Nat) :
    walkEndpoints (ep :: eps) acc =
      walkEndpoints eps
        (match ep.direction with
          | Direction.In => (some ep.address, acc.2)
          | Direction.Out => (acc.1, some ep.address)) := rfl

theorem walkEndpoints_fst_none (eps : List EndpointDesc)
    (acc : Option Nat × Option Nat) :
    (walkEndpoints eps acc).1 = none ↔
      acc.1 = none ∧ ∀ ep ∈ eps, ep.direction ≠ Direction.In := by
  induction eps generalizing acc with
  | nil => simp [walkEndpoints]
  | cons ep eps ih =>
    rw [walkEndpoints_cons]
    rcases hd : ep.direction with _ | _ <;>
      simp [ih, List.forall_mem_cons, hd]

theorem walkEndpoints_snd_none (eps : List EndpointDesc)
    (acc : Option Nat × Option Nat) :
    (walkEndpoints eps acc).2 = none ↔
      acc.2 = none ∧ ∀ ep ∈ eps, ep.direction ≠ Direction.Out := by
  induction eps generalizing acc with
  | nil => simp [walkEndpoints]
  | cons ep eps ih =>
    rw [walkEndpoints_cons]
    rcases hd : ep.direction with _ | _ <;>
      simp [ih, List.forall_mem_cons, hd]

theorem walkDescs_cons (d : InterfaceDesc) (descs : List InterfaceDesc)
    (st : Option InterfaceDesc × Option Nat × Option Nat) :
    walkDescs (d :: descs) st =
      walkDescs descs (some d, walkEndpoints d.endpoints st.2) := rfl

theorem walkDescs_fst_none (descs : List InterfaceDesc)
    (st : Option InterfaceDesc × Option Nat × Option Nat) :
    (walkDescs descs st).1 = none ↔ st.1 = none ∧ descs = [] := by
  induction descs generalizing st with
  | nil => simp [walkDescs]
  | cons d descs ih =>
    rw [walkDescs_cons]
    simp [ih]

theorem walkDescs_in_none (descs : List InterfaceDesc)
    (st : Option InterfaceDesc × Option Nat × Option Nat) :
    (walkDescs descs st).2.1 = none ↔
      st.2.1 = none ∧
        ∀ d ∈ descs, ∀ ep ∈ d.endpoints, ep.direction ≠ Direction.In := by
  induction descs generalizing st with
  | nil => simp [walkDescs]
  | cons d descs ih =>
    rw [walkDescs_cons]
    rw [ih]
    simp [walkEndpoints_fst_none, List.forall_mem_cons, and_assoc]

theorem walkDescs_out_none (descs : List InterfaceDesc)
    (st : Option InterfaceDesc × Option Nat × Option Nat) :
    (walkDescs descs st).2.2 = none ↔
      st.2.2 = none ∧
        ∀ d ∈ descs, ∀ ep ∈ d.endpoints, ep.direction ≠ Direction.Out := by
  induction descs generalizing st with
  | nil => simp [walkDescs]
  | cons d descs ih =>
    rw [walkDescs_cons]
    rw [ih]
    simp [walkEndpoints_snd_none, List.forall_mem_cons, and_assoc]

theorem walkConfig_cons_cons (x y : Interface) (ys : List Interface) :
    walkConfig (x :: y :: ys) = walkConfig (y :: ys) := rfl

theorem walkConfig_last (ifaces : List Interface) (i : Interface)
    (h : ifaces.getLast? = some i) :
    walkConfig ifaces = walkInterface i.descriptors := by
  induction ifaces with
  | nil => cases h
  | cons x xs ih =>
    cases xs with
    | nil =>
      simp only [List.getLast?_singleton, Option.some.injEq] at h
      subst h
      rfl
    | cons y ys =>
      rw [List.getLast?_cons_cons] at h
      rw [walkConfig_cons_cons]
      exact ih h

/-- The condition under which the descriptor walk of `Adapter::listen`
ends with no interface/endpoint pair, written over the descriptor tree:
the interface list is empty, or the last enumerated interface has no
alternate-setting descriptors, or its descriptors contain no
IN-direction endpoint, or no OUT-direction endpoint. -/
def lacksPair (ifaces : List Interface) : Prop :=
  match ifaces.getLast? with
  | none => True
  | some last =>
    last.descriptors = [] ∨
    (∀ d ∈ last.descriptors, ∀ ep ∈ d.endpoints, ep.direction ≠ Direction.In) ∨
    (∀ d ∈ last.descriptors, ∀ ep ∈ d.endpoints, ep.direction ≠ Direction.Out)

theorem walk_none_iff_lacksPair (ifaces : List Interface) :
    ((walkConfig ifaces).1 = none ∨ (walkConfig ifaces).2.1 = none ∨
      (walkConfig ifaces).2.2 = none) ↔ lacksPair ifaces := by
  unfold lacksPair
  cases hl : ifaces.getLast? with
  | none =>
    have : ifaces = [] := List.getLast?_eq_none_iff.mp hl
    subst this
    simp [walkConfig]
  | some last =>
    rw [walkConfig_last ifaces last hl, walkInterface_eq_walkDescs,
      walkDescs_fst_none, walkDescs_in_none, walkDescs_out_none]
    simp

theorem step_ur {α : Type} (r : Except UsbError α) (act : Action)
    (k : α → Except Error Listener × List Action) :
    (step r act k).1 = Except.error Error.UnrecognizedProtocol ↔
      ∃ a, r = Except.ok a ∧
        (k a).1 = Except.error Error.UnrecognizedProtocol := by
  cases r <;> simp [step]

theorem listen_ur_iff (h : Host) (config : ConfigDescriptor)
    (hopen : h.openResult = Except.ok ())
    (hconf : h.configResult = Except.ok config) :
    (listen h).1 = Except.error Error.UnrecognizedProtocol ↔
      ((walkConfig config.interfaces).1 = none ∨
       (walkConfig config.interfaces).2.1 = none ∨
       (walkConfig config.interfaces).2.2 = none) := by
  rcases hw : walkConfig config.interfaces with ⟨oi, oin, oout⟩
  unfold listen
  rcases oi with _ | i <;> rcases oin with _ | a <;> rcases oout with _ | b <;>
    simp [step_ur, hopen, hconf, hw]
  rcases hk : h.kernelDriverActive with e | bb
  · simp [step_ur]
  · cases bb <;> simp [step_ur]

/-- C4 (amended): establishment fails with `UnrecognizedProtocol`
exactly when the walk's last-seen state lacks a pair — the interface
list is empty, or the last enumerated interface has no descriptors, or
its descriptors contain no IN endpoint or no OUT endpoint; in
particular, for a descriptor tree containing no endpoint with IN
direction, `listen` returns `UnrecognizedProtocol`, not a transport
error. -/
theorem c4_unrecognized_exactly_lacksPair (h : Host) (config : ConfigDescriptor)
    (hopen : h.openResult = Except.ok ())
    (hconf : h.configResult = Except.ok config) :
    ((listen h).1 = Except.error Error.UnrecognizedProtocol ↔
       lacksPair config.interfaces) ∧
    ((∀ i ∈ config.interfaces, ∀ d ∈ i.descriptors, ∀ ep ∈ d.endpoints,
        ep.direction ≠ Direction.In) →
      (listen h).1 = Except.error Error.UnrecognizedProtocol) := by
  have hiff := (listen_ur_iff h config hopen hconf).trans
    (walk_none_iff_lacksPair config.interfaces)
  refine ⟨hiff, fun hno => hiff.mpr ?_⟩
  unfold lacksPair
  cases hl : config.interfaces.getLast? with
  | none => trivial
  | some last =>
    have hmem : last ∈ config.interfaces := by
      obtain ⟨hne, heq⟩ := List.mem_getLast?_eq_getLast
        (l := config.interfaces) (x := last) (by simp [hl])
      rw [heq]
      exact List.getLast_mem hne
    exact Or.inr (Or.inl (hno last hmem))

/-- An interface offering both an IN and an OUT endpoint somewhere in
its descriptors (the claim's reading of "offered both directions"). -/
def offersBoth (i : Interface) : Bool :=
  (i.descriptors.any fun d =>
    d.endpoints.any fun ep => ep.direction == Direction.In) &&
  (i.descriptors.any fun d =>
    d.endpoints.any fun ep => ep.direction == Direction.Out)

/-- An IN endpoint at address `0x81`. -/
def epIn81 : EndpointDesc := { direction := Direction.In, address := 0x81 }

/-- An OUT endpoint at address `0x02`. -/
def epOut02 : EndpointDesc := { direction := Direction.Out, address := 0x02 }

/-- Alternate setting of the good counterexample interface. -/
def descPair : InterfaceDesc :=
  { interface_number := 0, setting_number := 0, endpoints := [epIn81, epOut02] }

/-- Alternate setting of the bare counterexample interface. -/
def descBare : InterfaceDesc :=
  { interface_number := 1, setting_number := 0, endpoints := [] }

/-- First interface of the counterexample tree: offers both an IN and
an OUT endpoint. -/
def ifacePair : Interface := { descriptors := [descPair] }

/-- Second interface of the counterexample tree: no endpoints at
all. -/
def ifaceBare : Interface := { descriptors := [descBare] }

/-- Counterexample configuration: a good interface followed by a bare
one, so the last-seen walk state lacks the pair. -/
def configTwo : ConfigDescriptor :=
  { number := 1, interfaces := [ifacePair, ifaceBare] }

/-- A host stack whose every call succeeds, exposing `configTwo`. -/
def hostTwo : Host :=
  { openResult := Except.ok (), configResult := Except.ok configTwo,
    kernelDriverActive := Except.ok false, detachResult := Except.ok (),
    setConfigResult := Except.ok (), claimResult := Except.ok (),
    setAltResult := Except.ok (), writeResult := Except.ok 1 }

/-- C4 counterexample: against `configTwo`, establishment fails with
`UnrecognizedProtocol` even though the enumerated interface
`ifacePair` offered both an IN-direction and an OUT-direction
endpoint — refuting "fails exactly when no enumerated interface
offered both". -/
theorem c4_counterexample :
    (listen hostTwo).1 = Except.error Error.UnrecognizedProtocol ∧
    ifacePair ∈ configTwo.interfaces ∧ offersBoth ifacePair = true := by
  exact ⟨rfl, List.mem_cons_self _ _, rfl⟩

/-- Witness for C4 (amended), discharging its hypotheses at the
concrete host `hostTwo`. -/
theorem c4_unrecognized_witness : lacksPair configTwo.interfaces :=
  (c4_unrecognized_exactly_lacksPair hostTwo configTwo rfl rfl).1.mp rfl

/-- Is this action the interrupt write of the activation command? -/
def isWrite : Action → Bool
  | Action.writeInterrupt _ _ _ => true
  | _ => false

/-- C8: once configuration activation, interface claim and
alternate-setting selection succeed, exactly one interrupt write is
issued — the single byte `0x13` on the discovered OUT endpoint with a
1-second timeout — and a failing write aborts establishment with the
transport error while a successful one yields the session. -/
theorem c8_activation_write (h : Host) (config : ConfigDescriptor)
    (idesc : InterfaceDesc) (ep_in ep_out : Nat)
    (hopen : h.openResult = Except.ok ())
    (hconf : h.configResult = Except.ok config)
    (hwalk : walkConfig config.interfaces = (some idesc, some ep_in, some ep_out))
    (hkd : h.kernelDriverActive = Except.ok true → h.detachResult = Except.ok ())
    (hsc : h.setConfigResult = Except.ok ())
    (hcl : h.claimResult = Except.ok ())
    (hsa : h.setAltResult = Except.ok ()) :
    ((listen h).2.filter isWrite = [Action.writeInterrupt ep_out [0x13] 1]) ∧
    (∀ e, h.writeResult = Except.error e →
       (listen h).1 = Except.error (Error.Usb e)) ∧
    (∀ n, h.writeResult = Except.ok n → ∃ l, (listen h).1 = Except.ok l) := by
  unfold listen
  rcases hk : h.kernelDriverActive with e0 | bb
  · rcases hw' : h.writeResult with e' | n' <;>
      simp [step, hopen, hconf, hwalk, hsc, hcl, hsa, hw', isWrite]
  · cases bb
    · rcases hw' : h.writeResult with e' | n' <;>
        simp [step, hopen, hconf, hwalk, hsc, hcl, hsa, hw', isWrite]
    · have hdet := hkd hk
      rcases hw' : h.writeResult with e' | n' <;>
        simp [step, hopen, hconf, hwalk, hsc, hcl, hsa, hdet, hw', isWrite]

/-- A one-interface configuration whose walk finds the pair. -/
def configGood : ConfigDescriptor := { number := 1, interfaces := [ifacePair] }

/-- A host exposing `configGood` with a kernel driver attached and all
calls succeeding. -/
def hostGood : Host :=
  { openResult := Except.ok (), configResult := Except.ok configGood,
    kernelDriverActive := Except.ok true, detachResult := Except.ok (),
    setConfigResult := Except.ok (), claimResult := Except.ok (),
    setAltResult := Except.ok (), writeResult := Except.ok 1 }

/-- Witness for C8 at `hostGood`. -/
theorem c8_activation_write_witness :
    (listen hostGood).2.filter isWrite = [Action.writeInterrupt 0x02 [0x13] 1] :=
  (c8_activation_write hostGood configGood descPair 0x81 0x02 rfl rfl rfl
    (fun _ => rfl) rfl rfl rfl).1

/-- C9: a failing kernel-driver-activity query is treated exactly like
"no driver attached": establishment proceeds as if the query had
returned false, any constructed session records the detach flag as
false, and no detach call is issued. -/
theorem c9_driver_query_failure (h : Host) (e : UsbError)
    (hq : h.kernelDriverActive = Except.error e) :
    listen h = listen { h with kernelDriverActive := Except.ok false } ∧
    (∀ l, (listen h).1 = Except.ok l → l.has_kernel_driver = false) ∧
    (∀ i, Action.detachKernelDriver i ∉ (listen h).2) := by
  refine ⟨?_, ?_, ?_⟩
  · simp [listen, step, hq]
  · intro l hl
    rcases ho : h.openResult with e1 | u
    · simp [listen, step, ho] at hl
    rcases hc : h.configResult with e2 | config
    · simp [listen, step, ho, hc] at hl
    rcases hwc : walkConfig config.interfaces with ⟨x, y, z⟩
    rcases x with _ | idesc
    · simp [listen, step, ho, hc, hwc] at hl
    rcases y with _ | a
    · simp [listen, step, ho, hc, hwc] at hl
    rcases z with _ | b
    · simp [listen, step, ho, hc, hwc] at hl
    rcases hs : h.setConfigResult with e3 | u3
    · simp [listen, step, ho, hc, hwc, hq, hs] at hl
    rcases hcl : h.claimResult with e4 | u4
    · simp [listen, step, ho, hc, hwc, hq, hs, hcl] at hl
    rcases hsa : h.setAltResult with e5 | u5
    · simp [listen, step, ho, hc, hwc, hq, hs, hcl, hsa] at hl
    rcases hwr : h.writeResult with e6 | n6
    · simp [listen, step, ho, hc, hwc, hq, hs, hcl, hsa, hwr] at hl
    simp [listen, step, ho, hc, hwc, hq, hs, hcl, hsa, hwr] at hl
    simp [← hl]
  · intro i
    rcases ho : h.openResult with e1 | u
    · simp [listen, step, ho]
    rcases hc : h.configResult with e2 | config
    · simp [listen, step, ho, hc]
    rcases hwc : walkConfig config.interfaces with ⟨x, y, z⟩
    rcases x with _ | idesc
    · simp [listen, step, ho, hc, hwc]
    rcases y with _ | a
    · simp [listen, step, ho, hc, hwc]
    rcases z with _ | b
    · simp [listen, step, ho, hc, hwc]
    rcases hs : h.setConfigResult with e3 | u3 <;>
      rcases hcl : h.claimResult with e4 | u4 <;>
      rcases hsa : h.setAltResult with e5 | u5 <;>
      rcases hwr : h.writeResult with e6 | n6 <;>
      simp [listen, step, ho, hc, hwc, hq, hs, hcl, hsa, hwr]

/-- `listen` never issues a kernel-driver reattach call, whatever the
host returns: reattachment belongs to teardown only. -/
theorem listen_no_attach (h : Host) (i : Nat) :
    Action.attachKernelDriver i ∉ (listen h).2 := by
  rcases ho : h.openResult with e1 | u
  · simp [listen, step, ho]
  rcases hc : h.configResult with e2 | config
  · simp [listen, step, ho, hc]
  rcases hwc : walkConfig config.interfaces with ⟨x, y, z⟩
  rcases x with _ | idesc
  · simp [listen, step, ho, hc, hwc]
  rcases y with _ | a
  · simp [listen, step, ho, hc, hwc]
  rcases z with _ | b
  · simp [listen, step, ho, hc, hwc]
  rcases hk : h.kernelDriverActive with e0 | bb
  · rcases hs : h.setConfigResult with e3 | u3 <;>
      rcases hcl : h.claimResult with e4 | u4 <;>
      rcases hsa : h.setAltResult with e5 | u5 <;>
      rcases hwr : h.writeResult with e6 | n6 <;>
      simp [listen, step, ho, hc, hwc, hk, hs, hcl, hsa, hwr]
  · cases bb
    · rcases hs : h.setConfigResult with e3 | u3 <;>
        rcases hcl : h.claimResult with e4 | u4 <;>
        rcases hsa : h.setAltResult with e5 | u5 <;>
        rcases hwr : h.writeResult with e6 | n6 <;>
        simp [listen, step, ho, hc, hwc, hk, hs, hcl, hsa, hwr]
    · rcases hd' : h.detachResult with e1' | u1
      · simp [listen, step, ho, hc, hwc, hk, hd']
      · rcases hs : h.setConfigResult with e3 | u3 <;>
          rcases hcl : h.claimResult with e4 | u4 <;>
          rcases hsa : h.setAltResult with e5 | u5 <;>
          rcases hwr : h.writeResult with e6 | n6 <;>
          simp [listen, step, ho, hc, hwc, hk, hd', hs, hcl, hsa, hwr]

/-- C10: when establishment has detached the kernel driver and a
subsequent step fails, `listen` returns the transport error and never
reattaches the driver — the detach call is in the trace, no reattach
call ever is, and no session is produced. -/
theorem c10_no_reattach_on_failure (h : Host) (config : ConfigDescriptor)
    (idesc : InterfaceDesc) (ep_in ep_out : Nat)
    (hopen : h.openResult = Except.ok ())
    (hconf : h.configResult = Except.ok config)
    (hwalk : walkConfig config.interfaces = (some idesc, some ep_in, some ep_out))
    (hkd : h.kernelDriverActive = Except.ok true)
    (hdet : h.detachResult = Except.ok ())
    (hfail : ∀ l, (listen h).1 ≠ Except.ok l) :
    (∃ e, (listen h).1 = Except.error (Error.Usb e)) ∧
    (Action.detachKernelDriver idesc.interface_number ∈ (listen h).2) ∧
    (∀ i, Action.attachKernelDriver i ∉ (listen h).2) := by
  refine ⟨?_, ?_, fun i => listen_no_attach h i⟩
  · rcases hs : h.setConfigResult with e3 | u3
    · exact ⟨e3, by simp [listen, step, hopen, hconf, hwalk, hkd, hdet, hs]⟩
    rcases hcl : h.claimResult with e4 | u4
    · exact ⟨e4, by simp [listen, step, hopen, hconf, hwalk, hkd, hdet, hs, hcl]⟩
    rcases hsa : h.setAltResult with e5 | u5
    · exact ⟨e5, by simp [listen, step, hopen, hconf, hwalk, hkd, hdet, hs, hcl, hsa]⟩
    rcases hwr : h.writeResult with e6 | n6
    · exact ⟨e6, by
        simp [listen, step, hopen, hconf, hwalk, hkd, hdet, hs, hcl, hsa, hwr]⟩
    · exfalso
      refine hfail
        { buffer := fun _ => 0, has_kernel_driver := true,
          interface := idesc.interface_number, endpoint_in := ep_in } ?_
      simp [listen, step, hopen, hconf, hwalk, hkd, hdet, hs, hcl, hsa, hwr]
  · rcases hs : h.setConfigResult with e3 | u3 <;>
      rcases hcl : h.claimResult with e4 | u4 <;>
      rcases hsa : h.setAltResult with e5 | u5 <;>
      rcases hwr : h.writeResult with e6 | n6 <;>
      simp [listen, step, hopen, hconf, hwalk, hkd, hdet, hs, hcl, hsa, hwr]

/-- Host whose kernel-driver-activity query itself errors. -/
def hostQueryFail : Host :=
  { openResult := Except.ok (), configResult := Except.ok configGood,
    kernelDriverActive := Except.error UsbError.timeout,
    detachResult := Except.ok (), setConfigResult := Except.ok (),
    claimResult := Except.ok (), setAltResult := Except.ok (),
    writeResult := Except.ok 1 }

/-- Witness for C9 at `hostQueryFail`. -/
theorem c9_driver_query_failure_witness :
    listen hostQueryFail =
      listen { hostQueryFail with kernelDriverActive := Except.ok false } :=
  (c9_driver_query_failure hostQueryFail UsbError.timeout rfl).1

/-- Host that detaches the kernel driver and then fails the interface
claim. -/
def hostClaimFail : Host :=
  { openResult := Except.ok (), configResult := Except.ok configGood,
    kernelDriverActive := Except.ok true, detachResult := Except.ok (),
    setConfigResult := Except.ok (),
    claimResult := Except.error (UsbError.other 3),
    setAltResult := Except.ok (), writeResult := Except.ok 1 }

/-- Witness for C10 at `hostClaimFail`. -/
theorem c10_no_reattach_on_failure_witness :
    ∃ e, (listen hostClaimFail).1 = Except.error (Error.Usb e) :=
  (c10_no_reattach_on_failure hostClaimFail configGood descPair 0x81 0x02
    rfl rfl rfl rfl rfl
    (fun _ hl => Except.noConfusion
      ((show (listen hostClaimFail).1 =
          Except.error (Error.Usb (UsbError.other 3)) from rfl) ▸ hl))).1

/-- A device descriptor: the identifiers `find_adapter` filters on. -/
structure DeviceDescriptor where
  vendor_id : Nat
  product_id : Nat
deriving DecidableEq, Repr

/-- One enumerated USB device, together with the outcome the host
stack returns for its descriptor read. -/
structure UsbDevice where
  descResult : Except UsbError DeviceDescriptor

/-- `Scanner::find_adapter`: walk the enumerated device list in order,
`try!` each descriptor read, and return the first device whose vendor
and product identifiers match the fixed constants; `Ok(None)` when the
list is exhausted. -/
def find_adapter : List UsbDevice → Except Error (Option UsbDevice)
  | [] => Except.ok none
  | d :: rest =>
    match d.descResult with
    | Except.error e => Except.error (Error.Usb e)
    | Except.ok desc =>
      if desc.vendor_id = VENDOR_ID ∧ desc.product_id = PRODUCT_ID then
        Except.ok (some d)
      else
        find_adapter rest

theorem find_adapter_skip (pre tail : List UsbDevice)
    (h : ∀ d' ∈ pre, ∃ dd, d'.descResult = Except.ok dd ∧
        ¬(dd.vendor_id = VENDOR_ID ∧ dd.product_id = PRODUCT_ID)) :
    find_adapter (pre ++ tail) = find_adapter tail := by
  induction pre with
  | nil => rfl
  | cons d pre ih =>
    obtain ⟨dd, hdd, hnm⟩ := h d (List.mem_cons_self _ _)
    rw [List.cons_append]
    simp only [find_adapter, hdd]
    rw [if_neg hnm]
    exact ih fun d' hd' => h d' (List.mem_cons_of_mem _ hd')

/-- C7: `find_adapter` returns `Some` wrapping the first device in
enumeration order whose vendor identifier is `0x057e` and product
identifier is `0x0337`; it returns `Ok(None)` when no device matches;
and the first descriptor-read failure aborts enumeration immediately
with the transport error, whatever devices follow. -/
theorem c7_find_adapter :
    (∀ (pre : List UsbDevice) (d : UsbDevice) (post : List UsbDevice)
       (desc : DeviceDescriptor),
       (∀ d' ∈ pre, ∃ dd, d'.descResult = Except.ok dd ∧
          ¬(dd.vendor_id = 0x057e ∧ dd.product_id = 0x0337)) →
       d.descResult = Except.ok desc →
       desc.vendor_id = 0x057e → desc.product_id = 0x0337 →
       find_adapter (pre ++ d :: post) = Except.ok (some d)) ∧
    (∀ ds : List UsbDevice,
       (∀ d' ∈ ds, ∃ dd, d'.descResult = Except.ok dd ∧
          ¬(dd.vendor_id = 0x057e ∧ dd.product_id = 0x0337)) →
       find_adapter ds = Except.ok none) ∧
    (∀ (pre : List UsbDevice) (d : UsbDevice) (post : List UsbDevice)
       (e : UsbError),
       (∀ d' ∈ pre, ∃ dd, d'.descResult = Except.ok dd ∧
          ¬(dd.vendor_id = 0x057e ∧ dd.product_id = 0x0337)) →
       d.descResult = Except.error e →
       find_adapter (pre ++ d :: post) = Except.error (Error.Usb e)) := by
  refine ⟨?_, ?_, ?_⟩
  · intro pre d post desc hpre hd hv hp
    rw [find_adapter_skip pre (d :: post) hpre]
    simp only [find_adapter, hd]
    rw [if_pos ⟨hv, hp⟩]
  · intro ds h
    have := find_adapter_skip ds [] h
    rw [List.append_nil] at this
    exact this
  · intro pre d post e hpre hd
    rw [find_adapter_skip pre (d :: post) hpre]
    simp only [find_adapter, hd]

/-- A descriptor that does not match the adapter identifiers. -/
def descNon : DeviceDescriptor := { vendor_id := 0x1234, product_id := 0x5678 }

/-- The adapter's descriptor. -/
def adapterDesc : DeviceDescriptor :=
  { vendor_id := 0x057e, product_id := 0x0337 }

/-- A non-matching device whose descriptor reads fine. -/
def devNon : UsbDevice := { descResult := Except.ok descNon }

/-- The matching adapter device. -/
def devMatch : UsbDevice := { descResult := Except.ok adapterDesc }

/-- A device whose descriptor read errors. -/
def devErr : UsbDevice := { descResult := Except.error UsbError.timeout }

/-- A later device that enumeration must never reach. -/
def devAfter : UsbDevice := { descResult := Except.error (UsbError.other 7) }

theorem devNon_skip : ∀ d' ∈ [devNon],
    ∃ dd, d'.descResult = Except.ok dd ∧
      ¬(dd.vendor_id = 0x057e ∧ dd.product_id = 0x0337) := by
  intro d' hd'
  rw [List.mem_singleton] at hd'
  subst hd'
  exact ⟨descNon, rfl, by decide⟩

/-- Witness for C7: first match wins, no match is `Ok(None)`, and the
first read failure aborts with the transport error. -/
theorem c7_find_adapter_witness :
    find_adapter [devNon, devMatch, devAfter] = Except.ok (some devMatch) ∧
    find_adapter [devNon] = Except.ok none ∧
    find_adapter [devNon, devErr, devMatch] =
      Except.error (Error.Usb UsbError.timeout) :=
  ⟨c7_find_adapter.1 [devNon] devMatch [devAfter] adapterDesc devNon_skip
      rfl rfl rfl,
   c7_find_adapter.2.1 [devNon] devNon_skip,
   c7_find_adapter.2.2 [devNon] devErr [devMatch] UsbError.timeout
      devNon_skip rfl⟩

end Gcn
